import Mathlib

/-!
Shallow embedding of the facet-yaml deserializer (src/deserialize/mod.rs).

The YAML node tree follows yaml_rust2's `Yaml` enum; the target type's
runtime shape descriptor is flattened into one inductive (`Shape`) whose
constructors encode the (Type, Def) combinations the dispatcher in
`deserialize_value` distinguishes.  The external builder (`facet_reflect::
Partial`) is modelled by returning the constructed value directly: its
open/close/assign operations are treated as succeeding, per the spec's
collaborator contract, so the only failure points are the ones the
deserializer itself produces.  The `todo!` at the unset-field check is
modelled by a distinct `panicked` outcome, separate from returned errors.
Machine integers are Nat/Int with explicit range checks and `% 2^64`
reinterpretation where the code casts.
-/

namespace FacetYaml

/-- Outcome of a deserialization step: `Ok`, a returned `AnyErr` message, or a
Rust panic (the `todo!` macro), which is an abort, not a returned error. -/
inductive DResult (α : Type) where
  | ok (a : α)
  | err (msg : String)
  | panicked (msg : String)
  deriving Repr, DecidableEq

/-- The YAML node tree, mirroring `yaml_rust2::Yaml`.  Integers are `i64` in
the source; the embedding uses `Int`, with range hypotheses where a claim
depends on the 64-bit bound. -/
inductive Yaml where
  | real (s : String)
  | integer (i : Int)
  | str (s : String)
  | boolean (b : Bool)
  | array (xs : List Yaml)
  | hash (pairs : List (Yaml × Yaml))
  | aliasNode (n : Nat)
  | null
  | badValue
  deriving Repr

/-- `yaml_type` from the source: names the kind of a node for diagnostics. -/
def yamlType : Yaml → String
  | .real _ => "real number"
  | .integer _ => "integer"
  | .str _ => "string"
  | .boolean _ => "boolean"
  | .array _ => "array"
  | .hash _ => "hash/map"
  | .aliasNode _ => "alias"
  | .null => "null"
  | .badValue => "bad value"

/-- `yaml_rust2::Yaml::as_str`: `Some` exactly for a `String` node. -/
def Yaml.asStr : Yaml → Option String
  | .str s => some s
  | _ => none

/-- Rust's `str::to_lowercase`, restricted to its ASCII action (the only
comparisons made against its result are with ASCII literals). -/
def lowercase (s : String) : String :=
  ⟨s.data.map Char.toLower⟩

/-- Rust `str::parse::<u64>`: optional leading `+`, then decimal digits,
value below 2^64. -/
def parseU64? (s : String) : Option Nat :=
  let t := if s.startsWith "+" then s.drop 1 else s
  match t.toNat? with
  | some n => if n < 2 ^ 64 then some n else none
  | none => none

/-- Rust `str::parse::<i64>`: optional sign, then decimal digits, value in
[-2^63, 2^63). -/
def parseI64? (s : String) : Option Int :=
  if s.startsWith "-" then
    match (s.drop 1).toNat? with
    | some n => if n ≤ 2 ^ 63 then some (-(n : Int)) else none
    | none => none
  else
    let t := if s.startsWith "+" then s.drop 1 else s
    match t.toNat? with
    | some n => if n < 2 ^ 63 then some (n : Int) else none
    | none => none

/-- Recognizer abstracting Rust's `str::parse::<f64>` grammar (optional sign,
digits with optional fraction and exponent, or inf/NaN forms).  No claim
depends on the exact accepted set; only its two-valued outcome is used. -/
def f64TextOk (s : String) : Bool :=
  let t := if s.startsWith "-" || s.startsWith "+" then s.drop 1 else s
  let core := t.toLower
  if core = "inf" || core = "infinity" || core = "nan" then true
  else
    let noExp :=
      match core.splitOn "e" with
      | [m] => some m
      | [m, e] =>
        let e := if e.startsWith "-" || e.startsWith "+" then e.drop 1 else e
        if e.length > 0 && e.all Char.isDigit then some m else none
      | _ => none
    match noExp with
    | none => false
    | some m =>
      match m.splitOn "." with
      | [a] => a.length > 0 && a.all Char.isDigit
      | [a, b] =>
        (a.length > 0 || b.length > 0) && a.all Char.isDigit && b.all Char.isDigit
      | _ => false

/-- `yaml_to_u64` from the source: stages a node as an unsigned 64-bit value.
The `Integer` arm is Rust's `*i as u64`, i.e. two's-complement
reinterpretation, `i mod 2^64`. -/
def yamlToU64 : Yaml → DResult Nat
  | .real r =>
    match parseU64? r with
    | some n => .ok n
    | none => .err "Failed to parse real as u64"
  | .integer i => .ok ((i % (2 ^ 64)).toNat)
  | .str s =>
    match parseU64? s with
    | some n => .ok n
    | none => .err "Failed to parse string as u64"
  | .boolean b => .ok (if b then 1 else 0)
  | v => .err ("Cannot convert " ++ yamlType v ++ " to u64")

/-- Staged representation of the float branch's `f64` value.  The numeric
value of the parsed float is not needed by any claim, so the staging source
is recorded instead of a floating-point number. -/
inductive F64Src where
  | ofString (s : String)
  | ofInt (i : Int)
  deriving Repr, DecidableEq

/-- The value the builder constructs.  Widths are recorded in bytes, as the
dispatcher reads them from the shape's layout. -/
inductive Value where
  | vuint (size : Nat) (n : Nat)
  | vint (size : Nat) (i : Int)
  | vfloat (size : Nat) (f : F64Src)
  | vbool (b : Bool)
  | vstr (s : String)
  | vlist (xs : List Value)
  | vmap (xs : List (String × Value))
  | vnone
  | vsome (v : Value)
  | vptr (v : Value)
  | vstruct (fields : List (String × Value))

/-- One struct field of a shape descriptor: its name, whether its flags
contain `FieldFlags::DEFAULT`, the value `set_nth_field_to_default` would
install, and the field's own shape. -/
structure FieldOf (σ : Type) where
  name : String
  hasDefault : Bool
  defaultVal : Value
  fshape : σ

/-- The target type's runtime shape descriptor, flattened to the cases
`deserialize_value` distinguishes.  `uintShape size isUsize` is an unsigned
integer primitive of `size` bytes (`isUsize` mirrors `shape.is_type::<usize>()`
at size 8), similarly `intShape`.  `otherScalar hook` is a scalar that is not
numeric/bool/String; `hook s` is `Some v` when `parse_from_str(s)` succeeds
building `v`, `none` when it errors.  `unsupported d` carries the shape's
debug text for the error message. -/
inductive Shape where
  | uintShape (size : Nat) (isUsize : Bool)
  | intShape (size : Nat) (isIsize : Bool)
  | floatShape (size : Nat)
  | boolShape
  | stringShape
  | otherScalar (hook : String → Option Value)
  | listShape (elem : Shape)
  | mapShape (valShape : Shape)
  | optionShape (inner : Shape)
  | pointerShape (pointee : Shape)
  | sliceShape (elem : Shape)
  | structShape (fields : List (FieldOf Shape))
  | transparent (inner : Shape)
  | unsupported (descr : String)

/-- `wip.field_index(k)` followed by reading that field: linear search by
exact name, returning the index and the field descriptor. -/
def fieldLookup (k : String) : List (FieldOf Shape) → Option (Nat × FieldOf Shape)
  | [] => none
  | f :: fs =>
    if f.name == k then some (0, f)
    else (fieldLookup k fs).map (fun p => (p.1 + 1, p.2))

theorem fieldLookup_mem {k : String} :
    ∀ {fs : List (FieldOf Shape)} {p : Nat × FieldOf Shape},
      fieldLookup k fs = some p → p.2 ∈ fs := by
  intro fs
  induction fs with
  | nil => intro p h; simp [fieldLookup] at h
  | cons f fs ih =>
    intro p h
    simp only [fieldLookup] at h
    split at h
    · cases h; simp
    · rw [Option.map_eq_some'] at h
      obtain ⟨q, hq, hp⟩ := h
      subst hp
      have hm := ih hq
      exact List.mem_cons_of_mem _ hm

theorem sizeOf_fshape_lt {f : FieldOf Shape} {fs : List (FieldOf Shape)}
    (h : f ∈ fs) : sizeOf f.fshape < sizeOf fs := by
  have h1 : sizeOf f < sizeOf fs := List.sizeOf_lt_of_mem h
  have h2 : sizeOf f.fshape < sizeOf f := by
    cases f; simp
  omega

/-- Message of the `todo!` the source hits when a field is still unset after
default-filling. -/
def todoMsg : String :=
  "should fill unset fields from struct's Default, but not implemented yet. the previous implementation was unsound."

/-- The default-application loop: for each field not yet set whose flags
contain DEFAULT, `set_nth_field_to_default`. -/
def applyDefaults (fields : List (FieldOf Shape)) (vals : List (Option Value)) :
    List (Option Value) :=
  (fields.zip vals).map fun fv =>
    match fv.2 with
    | some w => some w
    | none => if fv.1.hasDefault then some fv.1.defaultVal else none

/-- Assemble the built struct value from the per-field slots (all slots are
filled when this is reached). -/
def assembleStruct (fields : List (FieldOf Shape)) (vals : List (Option Value)) :
    Value :=
  .vstruct ((fields.zip vals).filterMap fun fv => fv.2.map fun w => (fv.1.name, w))

/-- Abbreviation of Rust's `Debug` formatting of a node, used only in the
"Expected a YAML hash" message (the source formats with `{value:?}` there). -/
def yamlDebug (v : Yaml) : String :=
  toString (repr v)

/-- The `if let Yaml::Null = value` test of the Option branch. -/
def Yaml.isNull : Yaml → Bool
  | .null => true
  | _ => false

/-- The pointer branch's test `Type::Sequence(SequenceType::Slice(_))` on the
pointee shape, returning the slice's element shape when it matches. -/
def sliceElem : Shape → Option Shape
  | .sliceShape elem => some elem
  | _ => none

theorem sliceElem_sizeOf {p e : Shape} (h : sliceElem p = some e) :
    sizeOf e < sizeOf p := by
  cases p <;> simp [sliceElem] at h
  subst h; simp

/-- The unsigned `match size` narrowing: `uN::try_from(u)` then `wip.set`.
At size 8 the source splits `usize` from `u64`; on the 64-bit platform
modelled here both accept every staged `u`.  The wildcard arm is the
source's fallback `usize::try_from`. -/
def setUInt (size : Nat) (isUsize : Bool) (u : Nat) : DResult Value :=
  match size with
  | 1 => if u < 2 ^ 8 then .ok (.vuint 1 u)
         else .err ("Value " ++ toString u ++ " out of range for u8")
  | 2 => if u < 2 ^ 16 then .ok (.vuint 2 u)
         else .err ("Value " ++ toString u ++ " out of range for u16")
  | 4 => if u < 2 ^ 32 then .ok (.vuint 4 u)
         else .err ("Value " ++ toString u ++ " out of range for u32")
  | 8 => if isUsize then .ok (.vuint 8 u) else .ok (.vuint 8 u)
  | 16 => .ok (.vuint 16 u)
  | _ => .ok (.vuint size u)

/-- The signed `match size` narrowing: `iN::try_from(i)` then `wip.set`,
with the same size-8 `isize`/`i64` split (both total over `i64` on the
64-bit platform modelled here). -/
def setInt (size : Nat) (isIsize : Bool) (i : Int) : DResult Value :=
  match size with
  | 1 => if -(2 ^ 7) ≤ i ∧ i < 2 ^ 7 then .ok (.vint 1 i)
         else .err ("Value " ++ toString i ++ " out of range for i8")
  | 2 => if -(2 ^ 15) ≤ i ∧ i < 2 ^ 15 then .ok (.vint 2 i)
         else .err ("Value " ++ toString i ++ " out of range for i16")
  | 4 => if -(2 ^ 31) ≤ i ∧ i < 2 ^ 31 then .ok (.vint 4 i)
         else .err ("Value " ++ toString i ++ " out of range for i32")
  | 8 => if isIsize then .ok (.vint 8 i) else .ok (.vint 8 i)
  | 16 => .ok (.vint 16 i)
  | _ => .ok (.vint size i)

/-- The signed branch's staging match (source order: Integer, Real, String,
Boolean, otherwise Shape Mismatch). -/
def yamlToI64 : Yaml → DResult Int
  | .integer i => .ok i
  | .real r =>
    match parseI64? r with
    | some i => .ok i
    | none => .err "Failed to parse real as i64"
  | .str s =>
    match parseI64? s with
    | some i => .ok i
    | none => .err "Failed to parse string as i64"
  | .boolean b => .ok (if b then 1 else 0)
  | v => .err ("Cannot convert " ++ yamlType v ++ " to i64")

/-- The float branch's staging match (Real, Integer, String, otherwise
Shape Mismatch).  The f32 narrowing at size 4 does not change the staged
source and is not modelled separately. -/
def yamlToF64 : Yaml → DResult F64Src
  | .real r =>
    if f64TextOk r then .ok (.ofString r) else .err "Failed to parse real as f64"
  | .integer i => .ok (.ofInt i)
  | .str s =>
    if f64TextOk s then .ok (.ofString s) else .err "Failed to parse string as f64"
  | v => .err ("Cannot convert " ++ yamlType v ++ " to f64")

mutual

/-- `deserialize_value`: the shape dispatcher.  Transparent attribute first,
then the struct path, then the `shape.def` match.  Builder open/close/assign
operations succeed in this model; the `todo!` hit when a field is unset after
default-filling is the `panicked` outcome. -/
def deserializeValue (s : Shape) (v : Yaml) : DResult Value :=
  match s with
  | .transparent inner =>
    -- begin_inner; recurse with the same node; end
    deserializeValue inner v
  | .structShape fields =>
    match v with
    | .hash pairs =>
      match dStructPairs fields (fields.map fun _ => none) pairs with
      | .err m => .err m
      | .panicked m => .panicked m
      | .ok vals =>
        let vals := applyDefaults fields vals
        if vals.any (fun ov => ov.isNone) then .panicked todoMsg
        else .ok (assembleStruct fields vals)
    | _ => .err ("Expected a YAML hash, got: " ++ yamlDebug v)
  | .uintShape size isUsize =>
    match yamlToU64 v with
    | .ok u => setUInt size isUsize u
    | .err m => .err m
    | .panicked m => .panicked m
  | .intShape size isIsize =>
    match yamlToI64 v with
    | .ok i => setInt size isIsize i
    | .err m => .err m
    | .panicked m => .panicked m
  | .floatShape size =>
    match yamlToF64 v with
    | .ok f => .ok (.vfloat size f)
    | .err m => .err m
    | .panicked m => .panicked m
  | .boolShape =>
    match v with
    | .boolean b => .ok (.vbool b)
    | .integer i => .ok (.vbool (i != 0))
    | .str s =>
      let t := lowercase s
      .ok (.vbool (t == "true" || t == "yes" || t == "1"))
    | _ => .err ("Cannot convert " ++ yamlType v ++ " to bool")
  | .stringShape =>
    match v.asStr with
    | some s => .ok (.vstr s)
    | none => .err ("Expected string, got: " ++ yamlType v)
  | .otherScalar hook =>
    match v.asStr with
    | none => .err ("Expected string, got: " ++ yamlType v)
    | some s =>
      match hook s with
      | some w => .ok w
      | none =>
        -- parse_from_str failed: fall back to setting the raw string
        .ok (.vstr s)
  | .listShape elem => deserializeAsList elem v
  | .mapShape valShape => deserializeAsMap valShape v
  | .optionShape inner =>
    if v.isNull then .ok .vnone
    else
      match deserializeValue inner v with
      | .ok w => .ok (.vsome w)
      | .err m => .err m
      | .panicked m => .panicked m
  | .pointerShape pointee =>
    match hse : sliceElem pointee with
    | some elem =>
      -- smart pointer to a slice: handled like a list
      match deserializeAsList elem v with
      | .ok w => .ok (.vptr w)
      | .err m => .err m
      | .panicked m => .panicked m
    | none =>
      match deserializeValue pointee v with
      | .ok w => .ok (.vptr w)
      | .err m => .err m
      | .panicked m => .panicked m
  | .sliceShape elem => deserializeAsList elem v
  | .unsupported d => .err ("Unsupported type: " ++ d)
termination_by sizeOf s + sizeOf v
decreasing_by
  all_goals simp_wf
  all_goals
    first
      | omega
      | (have hm : sizeOf elem < sizeOf pointee := sliceElem_sizeOf hse; omega)

/-- The struct path's per-pair loop: string key, exact-name field index, open
the field's hole, recurse, close, mark present (slot `idx` set). -/
def dStructPairs (fields : List (FieldOf Shape)) (vals : List (Option Value))
    (pairs : List (Yaml × Yaml)) : DResult (List (Option Value)) :=
  match pairs with
  | [] => .ok vals
  | (ky, v) :: rest =>
    match ky.asStr with
    | none => .err ("Expected string key, got: " ++ yamlType ky)
    | some k =>
      match hfl : fieldLookup k fields with
      | none => .err ("Field '" ++ k ++ "' not found")
      | some (idx, f) =>
        match deserializeValue f.fshape v with
        | .err m => .err m
        | .panicked m => .panicked m
        | .ok w => dStructPairs fields (vals.set idx (some w)) rest
termination_by sizeOf fields + sizeOf pairs
decreasing_by
  all_goals simp_wf
  all_goals
    first
      | omega
      | (have hm : sizeOf f.fshape < sizeOf fields :=
           sizeOf_fshape_lt (fieldLookup_mem hfl)
         omega)

/-- `deserialize_as_list`: require an array, `begin_list`, then the element
loop (empty array returns at once with the collection left empty). -/
def deserializeAsList (elem : Shape) (v : Yaml) : DResult Value :=
  match v with
  | .array xs =>
    if xs.isEmpty then .ok (.vlist [])
    else
      match dListElems elem xs with
      | .ok ws => .ok (.vlist ws)
      | .err m => .err m
      | .panicked m => .panicked m
  | _ => .err ("Expected a YAML array, got: " ++ yamlType v)
termination_by sizeOf elem + sizeOf v
decreasing_by
  all_goals simp_wf
  all_goals omega

/-- The element loop of `deserialize_as_list`, in source order. -/
def dListElems (elem : Shape) (xs : List Yaml) : DResult (List Value) :=
  match xs with
  | [] => .ok []
  | x :: rest =>
    match deserializeValue elem x with
    | .err m => .err m
    | .panicked m => .panicked m
    | .ok w =>
      match dListElems elem rest with
      | .ok ws => .ok (w :: ws)
      | .err m => .err m
      | .panicked m => .panicked m
termination_by sizeOf elem + sizeOf xs
decreasing_by
  all_goals simp_wf
  all_goals omega

/-- `deserialize_as_map`: require a hash, `begin_map`, then the pair loop
(empty hash returns at once with the map left empty). -/
def deserializeAsMap (valShape : Shape) (v : Yaml) : DResult Value :=
  match v with
  | .hash pairs =>
    if pairs.isEmpty then .ok (.vmap [])
    else
      match dMapPairs valShape pairs with
      | .ok ws => .ok (.vmap ws)
      | .err m => .err m
      | .panicked m => .panicked m
  | _ => .err ("Expected a YAML hash/map, got: " ++ yamlType v)
termination_by sizeOf valShape + sizeOf v
decreasing_by
  all_goals simp_wf
  all_goals omega

/-- The pair loop of `deserialize_as_map`: string key assigned into a key
hole, value recursed into a value hole, in source order. -/
def dMapPairs (valShape : Shape) (pairs : List (Yaml × Yaml)) :
    DResult (List (String × Value)) :=
  match pairs with
  | [] => .ok []
  | (ky, v) :: rest =>
    match ky.asStr with
    | none => .err ("Expected string key, got: " ++ yamlType ky)
    | some k =>
      match deserializeValue valShape v with
      | .err m => .err m
      | .panicked m => .panicked m
      | .ok w =>
        match dMapPairs valShape rest with
        | .ok ws => .ok ((k, w) :: ws)
        | .err m => .err m
        | .panicked m => .panicked m
termination_by sizeOf valShape + sizeOf pairs
decreasing_by
  all_goals simp_wf
  all_goals omega

end

/-- `from_str_value`: load the documents (the external parser's outcome is
the `parsed` argument), require exactly one, then dispatch on the root. -/
def fromStrValue (s : Shape) (parsed : Except String (List Yaml)) : DResult Value :=
  match parsed with
  | .error e => .err e
  | .ok docs =>
    match docs with
    | [d] => deserializeValue s d
    | _ => .err "Expected exactly one YAML document"

/-- `from_str`: `Partial::alloc`, `from_str_value`, `build`.  Allocation and
the final `build` are external builder steps that succeed in this model, so
`from_str` coincides with `from_str_value`. -/
def fromStr (s : Shape) (parsed : Except String (List Yaml)) : DResult Value :=
  fromStrValue s parsed

/-- A node the boolean branch coerces (Boolean, Integer or String); every
other kind falls to the Shape Mismatch arm. -/
def boolCoercible : Yaml → Bool
  | .boolean _ => true
  | .integer _ => true
  | .str _ => true
  | _ => false

theorem dStructPairs_unknown (fields : List (FieldOf Shape)) (vals : List (Option Value))
    (k : String) (v : Yaml) (rest : List (Yaml × Yaml))
    (hun : fieldLookup k fields = none) :
    dStructPairs fields vals ((.str k, v) :: rest) =
      .err ("Field '" ++ k ++ "' not found") := by
  rw [dStructPairs]
  simp only [Yaml.asStr]
  split
  · rfl
  · next idx f hfl => simp [hun] at hfl

theorem dStructPairs_nonstring (fields : List (FieldOf Shape)) (vals : List (Option Value))
    (ky v : Yaml) (rest : List (Yaml × Yaml)) (hns : ky.asStr = none) :
    dStructPairs fields vals ((ky, v) :: rest) =
      .err ("Expected string key, got: " ++ yamlType ky) := by
  rw [dStructPairs]
  simp [hns]

theorem deserializeValue_struct_err (fields : List (FieldOf Shape))
    (pairs : List (Yaml × Yaml)) (m : String)
    (h : dStructPairs fields (fields.map fun _ => none) pairs = .err m) :
    deserializeValue (.structShape fields) (.hash pairs) = .err m := by
  rw [deserializeValue, h]

theorem dListElems_ok {elem : Shape} :
    ∀ {xs : List Yaml} {vs : List Value},
      List.Forall₂ (fun y w => deserializeValue elem y = .ok w) xs vs →
      dListElems elem xs = .ok vs := by
  intro xs vs h
  induction h with
  | nil => rw [dListElems]
  | cons h1 h2 ih => simp [dListElems, h1, ih]

theorem deserializeValue_uint (sz : Nat) (b : Bool) (v : Yaml) (u : Nat)
    (h : yamlToU64 v = .ok u) :
    deserializeValue (.uintShape sz b) v = setUInt sz b u := by
  rw [deserializeValue, h]

theorem uint_narrow_spec (v : Yaml) (u : Nat) (b : Bool) (h : yamlToU64 v = .ok u) :
    (u < 2 ^ 8 → deserializeValue (.uintShape 1 b) v = .ok (.vuint 1 u)) ∧
    (2 ^ 8 ≤ u → deserializeValue (.uintShape 1 b) v =
      .err ("Value " ++ toString u ++ " out of range for u8")) ∧
    (u < 2 ^ 16 → deserializeValue (.uintShape 2 b) v = .ok (.vuint 2 u)) ∧
    (2 ^ 16 ≤ u → deserializeValue (.uintShape 2 b) v =
      .err ("Value " ++ toString u ++ " out of range for u16")) ∧
    (u < 2 ^ 32 → deserializeValue (.uintShape 4 b) v = .ok (.vuint 4 u)) ∧
    (2 ^ 32 ≤ u → deserializeValue (.uintShape 4 b) v =
      .err ("Value " ++ toString u ++ " out of range for u32")) ∧
    deserializeValue (.uintShape 8 b) v = .ok (.vuint 8 u) := by
  refine ⟨fun hu => ?_, fun hu => ?_, fun hu => ?_, fun hu => ?_,
    fun hu => ?_, fun hu => ?_, ?_⟩ <;> rw [deserializeValue_uint _ _ _ _ h] <;>
    simp [setUInt] <;> omega

/-- C1: after the source mapping is consumed and defaults applied, a still
unset field does NOT produce a reported Missing Required Field error: the
code reaches its `todo!` and panics.  Shown on a struct with one required
defaultless field and an empty source mapping. -/
theorem c1_missing_required_field_panics :
    deserializeValue (.structShape [⟨"x", false, .vnone, .uintShape 1 false⟩])
      (.hash []) = .panicked todoMsg := by
  simp only [deserializeValue, dStructPairs]
  rfl

/-- C2: for a scalar target with a custom string-parse hook and a string
source node, the hook is attempted, a hook failure falls back to assigning
the raw string, and the branch always returns `ok` — it never errors. -/
theorem c2_hook_fallback_never_errors (hook : String → Option Value) (s : String) :
    deserializeValue (.otherScalar hook) (.str s) =
      .ok ((hook s).getD (.vstr s)) := by
  rw [deserializeValue]
  simp only [Yaml.asStr]
  cases hook s <;> rfl

/-- C3: a parse yielding a document count other than one fails with the
Format Error "Expected exactly one YAML document" for every target shape,
before any shape dispatch; exactly one document enters `deserialize_value`
on the root shape. -/
theorem c3_exactly_one_document (s : Shape) (docs : List Yaml) (d : Yaml)
    (h : docs.length ≠ 1) :
    fromStr s (.ok docs) = .err "Expected exactly one YAML document" ∧
    fromStr s (.ok [d]) = deserializeValue s d := by
  constructor
  · match docs with
    | [] => rfl
    | [x] => exact absurd rfl h
    | x :: y :: rest => rfl
  · rfl

theorem c3_exactly_one_document_witness :
    fromStr .boolShape (.ok []) = .err "Expected exactly one YAML document" ∧
    fromStr .boolShape (.ok [.null]) = deserializeValue .boolShape .null :=
  c3_exactly_one_document .boolShape [] .null (by decide)

/-- C4: boolean target coercion — Boolean as-is, Integer by nonzero test,
String by case-insensitive membership in {"true","yes","1"} (false for every
other string, without erroring), and Shape Mismatch for every other node
kind. -/
theorem c4_bool_coercion (b : Bool) (i : Int) (s : String) (v : Yaml)
    (hv : boolCoercible v = false) :
    deserializeValue .boolShape (.boolean b) = .ok (.vbool b) ∧
    deserializeValue .boolShape (.integer i) = .ok (.vbool (i != 0)) ∧
    deserializeValue .boolShape (.str s) =
      .ok (.vbool (lowercase s == "true" || lowercase s == "yes" ||
        lowercase s == "1")) ∧
    deserializeValue .boolShape v =
      .err ("Cannot convert " ++ yamlType v ++ " to bool") := by
  refine ⟨by rw [deserializeValue], by rw [deserializeValue],
    by rw [deserializeValue], ?_⟩
  cases v <;> simp [boolCoercible] at hv <;> rw [deserializeValue] <;> simp

theorem c4_bool_coercion_witness :
    deserializeValue .boolShape (.str "Yes") = .ok (.vbool true) ∧
    deserializeValue .boolShape (.str "no") = .ok (.vbool false) ∧
    deserializeValue .boolShape .null = .err "Cannot convert null to bool" := by
  have h1 := (c4_bool_coercion true 0 "Yes" .null (by rfl)).2.2.1
  have h2 := (c4_bool_coercion true 0 "no" .null (by rfl)).2.2.1
  have h3 := (c4_bool_coercion true 0 "no" .null (by rfl)).2.2.2
  exact ⟨by rw [h1]; rfl, by rw [h2]; rfl, by rw [h3]; rfl⟩

/-- C5: unsigned targets range-check and narrow the staged 64-bit value,
erring with a message naming the value and width when it does not fit (u8,
u16, u32; the 8- and 16-byte widths admit every staged value). -/
theorem c5_uint_range (v : Yaml) (u : Nat) (b : Bool) (h : yamlToU64 v = .ok u) :
    (u < 2 ^ 8 → deserializeValue (.uintShape 1 b) v = .ok (.vuint 1 u)) ∧
    (2 ^ 8 ≤ u → deserializeValue (.uintShape 1 b) v =
      .err ("Value " ++ toString u ++ " out of range for u8")) ∧
    (u < 2 ^ 16 → deserializeValue (.uintShape 2 b) v = .ok (.vuint 2 u)) ∧
    (2 ^ 16 ≤ u → deserializeValue (.uintShape 2 b) v =
      .err ("Value " ++ toString u ++ " out of range for u16")) ∧
    (u < 2 ^ 32 → deserializeValue (.uintShape 4 b) v = .ok (.vuint 4 u)) ∧
    (2 ^ 32 ≤ u → deserializeValue (.uintShape 4 b) v =
      .err ("Value " ++ toString u ++ " out of range for u32")) := by
  have hs := uint_narrow_spec v u b h
  exact ⟨hs.1, hs.2.1, hs.2.2.1, hs.2.2.2.1, hs.2.2.2.2.1, hs.2.2.2.2.2.1⟩

theorem c5_uint_range_witness :
    deserializeValue (.uintShape 1 false) (.integer 300) =
      .err "Value 300 out of range for u8" ∧
    deserializeValue (.uintShape 1 false) (.integer 255) =
      .ok (.vuint 1 255) := by
  have h300 := (c5_uint_range (.integer 300) 300 false (by rfl)).2.1 (by omega)
  have h255 := (c5_uint_range (.integer 255) 255 false (by rfl)).1 (by omega)
  exact ⟨by rw [h300]; rfl, by rw [h255]⟩

/-- C6: in the struct path, a string mapping key with no exact-name field
match raises Unknown Field ("Field '<name>' not found") whenever its pair is
reached (never a silent skip), and a non-string key raises Shape Mismatch
("Expected string key, got: <kind>"); both also shown from the dispatcher
entry with the offending pair first. -/
theorem c6_struct_keys (fields : List (FieldOf Shape)) (vals : List (Option Value))
    (k : String) (ky v : Yaml) (rest : List (Yaml × Yaml))
    (hun : fieldLookup k fields = none) (hns : ky.asStr = none) :
    dStructPairs fields vals ((.str k, v) :: rest) =
      .err ("Field '" ++ k ++ "' not found") ∧
    deserializeValue (.structShape fields) (.hash ((.str k, v) :: rest)) =
      .err ("Field '" ++ k ++ "' not found") ∧
    dStructPairs fields vals ((ky, v) :: rest) =
      .err ("Expected string key, got: " ++ yamlType ky) ∧
    deserializeValue (.structShape fields) (.hash ((ky, v) :: rest)) =
      .err ("Expected string key, got: " ++ yamlType ky) :=
  ⟨dStructPairs_unknown fields vals k v rest hun,
   deserializeValue_struct_err _ _ _ (dStructPairs_unknown fields _ k v rest hun),
   dStructPairs_nonstring fields vals ky v rest hns,
   deserializeValue_struct_err _ _ _ (dStructPairs_nonstring fields _ ky v rest hns)⟩

theorem c6_struct_keys_witness :
    deserializeValue (.structShape [⟨"x", false, .vnone, .uintShape 1 false⟩])
      (.hash [(.str "foo", .integer 1)]) = .err "Field 'foo' not found" ∧
    deserializeValue (.structShape [⟨"x", false, .vnone, .uintShape 1 false⟩])
      (.hash [(.integer 3, .integer 1)]) =
      .err "Expected string key, got: integer" := by
  have h := c6_struct_keys [⟨"x", false, .vnone, .uintShape 1 false⟩] []
    "foo" (.integer 3) (.integer 1) [] (by rfl) (by rfl)
  exact ⟨by rw [h.2.1]; rfl, by rw [h.2.2.2]; rfl⟩

/-- C7: a sequence node against a list target translates its elements in
source order, the resulting collection holding exactly the translated
elements in that order. -/
theorem c7_list_order (elem : Shape) (xs : List Yaml) (vs : List Value)
    (h : List.Forall₂ (fun y w => deserializeValue elem y = .ok w) xs vs) :
    deserializeValue (.listShape elem) (.array xs) = .ok (.vlist vs) := by
  rw [deserializeValue, deserializeAsList]
  cases h with
  | nil => rfl
  | cons h1 h2 =>
    simp only [List.isEmpty_cons, Bool.false_eq_true, if_false]
    rw [dListElems_ok (.cons h1 h2)]

theorem c7_list_order_witness :
    deserializeValue (.listShape (.uintShape 1 false))
      (.array [.integer 1, .integer 2, .integer 3, .integer 4, .integer 5]) =
      .ok (.vlist [.vuint 1 1, .vuint 1 2, .vuint 1 3, .vuint 1 4, .vuint 1 5]) :=
  c7_list_order _ _ _ (by
    refine .cons ?_ (.cons ?_ (.cons ?_ (.cons ?_ (.cons ?_ .nil)))) <;>
      (rw [deserializeValue]; rfl))

/-- C8: an empty sequence node against a list or slice target, and an empty
mapping node against a map target, succeed with the empty collection. -/
theorem c8_empty_collections (e m : Shape) :
    deserializeValue (.listShape e) (.array []) = .ok (.vlist []) ∧
    deserializeValue (.sliceShape e) (.array []) = .ok (.vlist []) ∧
    deserializeValue (.mapShape m) (.hash []) = .ok (.vmap []) := by
  refine ⟨?_, ?_, ?_⟩ <;> rw [deserializeValue]
  · rw [deserializeAsList]; rfl
  · rw [deserializeAsList]; rfl
  · rw [deserializeAsMap]; rfl

/-- C9: an Integer source against an unsigned target is staged as its
two's-complement 64-bit reinterpretation `i mod 2^64`; a negative `i`
therefore succeeds at width 8 with value `2^64 + i` and fails Out-of-Range
at widths 1, 2 and 4. -/
theorem c9_uint_negative_reinterpret (i : Int) (b : Bool) (hneg : i < 0)
    (hlb : -(2 ^ 63) ≤ i) :
    yamlToU64 (.integer i) = .ok (2 ^ 64 + i).toNat ∧
    deserializeValue (.uintShape 8 b) (.integer i) =
      .ok (.vuint 8 ((2 ^ 64 + i).toNat)) ∧
    deserializeValue (.uintShape 1 b) (.integer i) =
      .err ("Value " ++ toString ((2 ^ 64 + i).toNat) ++ " out of range for u8") ∧
    deserializeValue (.uintShape 2 b) (.integer i) =
      .err ("Value " ++ toString ((2 ^ 64 + i).toNat) ++ " out of range for u16") ∧
    deserializeValue (.uintShape 4 b) (.integer i) =
      .err ("Value " ++ toString ((2 ^ 64 + i).toNat) ++ " out of range for u32") := by
  have he : i % (2 ^ 64) = 2 ^ 64 + i := by omega
  have hu : yamlToU64 (.integer i) = .ok ((i % (2 ^ 64)).toNat) := rfl
  rw [he] at hu
  have h := uint_narrow_spec (.integer i) ((2 ^ 64 + i).toNat) b hu
  exact ⟨hu, h.2.2.2.2.2.2, h.2.1 (by omega), h.2.2.2.1 (by omega),
    h.2.2.2.2.2.1 (by omega)⟩

theorem c9_uint_negative_reinterpret_witness :
    deserializeValue (.uintShape 8 false) (.integer (-1)) =
      .ok (.vuint 8 18446744073709551615) ∧
    deserializeValue (.uintShape 1 false) (.integer (-1)) =
      .err "Value 18446744073709551615 out of range for u8" := by
  have h := c9_uint_negative_reinterpret (-1) false (by omega) (by omega)
  exact ⟨by rw [h.2.1]; rfl, by rw [h.2.2.1]; rfl⟩

/-- C10: `from_str` is a pure function of the input parse outcome and the
target's shape descriptor, so two runs on the same input produce identical
results (same value or the same error message). -/
theorem c10_from_str_deterministic (s : Shape) (p : Except String (List Yaml)) :
    fromStr s p = fromStr s p := rfl

end FacetYaml
